import Mathlib

/-!
Verification development for the Reolink hub plugin.

The definitions below are a shallow embedding of the plugin's hub client
(`ReolinkHubClient` in `src/reolink-api.ts`), of the motion-decay handling in
`ReolinkCamera.processEvents` (`src/camera.ts`), and of the poll-tick decision
logic in `ReolinkProvider.init` (`src/main.ts`).

Modelling conventions:
- JavaScript timestamps (`Date.now()`, lease expiries, deadlines) are `Nat`
  milliseconds.
- A JavaScript value that may be `undefined` is an `Option`.  An
  optional-chained access (`a?.b`) is `Option.bind`; an unguarded member
  access on a possibly-`undefined` value (which throws a `TypeError` at
  runtime) is modelled by returning `Except.error` from the enclosing
  function.
- Network effects are made explicit: the outcome the hub would return is an
  argument, and the calls actually performed are returned as a trace.
-/

namespace ReolinkHub

/-- Network calls a client method can perform: the credential exchange done by
`login` (via `getLoginParameters`) and the actual batched HTTP command request
done by `this.request`. -/
inductive NetCall where
  | loginExchange : NetCall
  | httpRequest : NetCall
deriving DecidableEq, Repr

/-- Result of a successful credential exchange (`getLoginParameters`). -/
structure LoginOutcome where
  parameters : List (String × String)
  leaseTimeSeconds : Nat
deriving DecidableEq, Repr

/-- One element of a batched command response, as inspected by
`requestWithLogin` and `reboot`: `error` is the `rspCode` of the element's
error object when present, `valueRspCode` is `value.rspCode` when present. -/
structure RespEntry where
  error : Option Int := none
  valueRspCode : Option Int := none
deriving DecidableEq, Repr

/-- Mutable fields of `ReolinkHubClient` (the source misspells
`conmnectionTime`; the name is kept).  `parameters = none` models the field
being `undefined`; `some []` models an empty-but-truthy object such as the
`{}` assigned by `logout`. -/
structure ClientState where
  tokenLease : Option Nat := none
  parameters : Option (List (String × String)) := none
  loggingIn : Bool := false
  loggedIn : Bool := false
  rebooting : Bool := false
  conmnectionTime : Nat := 0
  maxSessionsCount : Nat := 0
  loginFirstCount : Nat := 0
deriving DecidableEq, Repr

/-- Truthiness test `this.tokenLease && this.tokenLease > Date.now()`.
(`some 0` is falsy in JavaScript, and `0 > now` is also false, so the
branches agree.) -/
def tokenLeaseActive (s : ClientState) (now : Nat) : Bool :=
  match s.tokenLease with
  | some t => decide (t > now)
  | none => false

/-- `ReolinkHubClient.login`.  Returns the new state and the network calls
performed.  `lo` is the outcome the credential exchange would produce.  The
`loggingIn` flag is set and cleared within the call; its net value is
`false`. -/
def login (s : ClientState) (now : Nat) (lo : LoginOutcome) :
    ClientState × List NetCall :=
  if tokenLeaseActive s now then (s, [])
  else if s.loggingIn then (s, [])
  else
    ({ s with
        loggingIn := false
        parameters := some lo.parameters
        tokenLease := some (now + 1000 * lo.leaseTimeSeconds)
        loggedIn := true
        conmnectionTime := now }, [NetCall.loginExchange])

/-- The error-counter update loop of `requestWithLogin`: collect the `error`
objects of the response body and fold their `rspCode`s over the pair
(`maxSessionsCount`, `loginFirstCount`). -/
def processErrors (maxSessionsCount loginFirstCount : Nat)
    (body : List RespEntry) : Nat × Nat :=
  let errors := body.filterMap (·.error)
  if errors.isEmpty then (maxSessionsCount, loginFirstCount)
  else
    errors.foldl
      (fun (p : Nat × Nat) code =>
        if code = -6 then (p.1, p.2 + 1)
        else if code = -5 then (p.1 + 1, p.2)
        else (0, 0))
      (maxSessionsCount, loginFirstCount)

/-- `ReolinkHubClient.requestWithLogin`.  `httpBody` is the body the hub would
answer with if the request is actually issued.  Returns the new state, the
response handed back to the caller (`none` models returning `undefined`), and
the trace of network calls performed. -/
def requestWithLogin (s : ClientState) (now : Nat) (lo : LoginOutcome)
    (httpBody : List RespEntry) :
    ClientState × Option (List RespEntry) × List NetCall :=
  let r := login s now lo
  let s1 := r.1
  match s1.parameters with
  | none => (s1, none, r.2)
  | some _ =>
    if s1.rebooting then (s1, none, r.2)
    else
      let c := processErrors s1.maxSessionsCount s1.loginFirstCount httpBody
      ({ s1 with maxSessionsCount := c.1, loginFirstCount := c.2 },
        some httpBody, r.2 ++ [NetCall.httpRequest])

/-- Outcome of `ReolinkHubClient.reboot`: final state, the `value` field of
the returned object (`response?.body?.[0]?.value?.rspCode`), the network
calls performed, and the delay in milliseconds of the scheduled timer. -/
structure RebootOutcome where
  state : ClientState
  value : Option Int
  trace : List NetCall
  graceMs : Nat
deriving DecidableEq, Repr

/-- `ReolinkHubClient.reboot`: builds the `cmd=Reboot` request, sets
`rebooting := true`, then calls `requestWithLogin` and schedules a
60-second timer (`fireRebootTimer` below is the timer's callback). -/
def reboot (s : ClientState) (now : Nat) (lo : LoginOutcome)
    (httpBody : List RespEntry) : RebootOutcome :=
  let s0 := { s with rebooting := true }
  let r := requestWithLogin s0 now lo httpBody
  { state := r.1
    value := (r.2.1.bind (·.get? 0)).bind (·.valueRspCode)
    trace := r.2.2
    graceMs := 1000 * 60 }

/-- Callback of the timer scheduled by `reboot`. -/
def fireRebootTimer (s : ClientState) : ClientState :=
  { s with rebooting := false, maxSessionsCount := 0, loginFirstCount := 0 }

/-- `ReolinkHubClient.logout`: issues the Logout command through
`requestWithLogin`, then clears `tokenLease` and assigns `parameters = {}`
(an empty but truthy object). -/
def logout (s : ClientState) (now : Nat) (lo : LoginOutcome)
    (httpBody : List RespEntry) : ClientState × List NetCall :=
  let r := requestWithLogin s now lo httpBody
  ({ r.1 with tokenLease := none, parameters := some [] }, r.2.2)

/-- `ReolinkHubClient.reconnect`: `logout()` then `login()`.  `lo1`/`lo2` are
the outcomes of the two potential credential exchanges, `logoutBody` the hub
body answering the Logout command. -/
def reconnect (s : ClientState) (now : Nat) (lo1 : LoginOutcome)
    (logoutBody : List RespEntry) (lo2 : LoginOutcome) :
    ClientState × List NetCall :=
  let r1 := logout s now lo1 logoutBody
  let r2 := login r1.1 now lo2
  (r2.1, r1.2 ++ r2.2)

/-- Recovery action taken by `checkErrors`. -/
inductive CheckAction where
  | reconnect : CheckAction
  | reboot : CheckAction
deriving DecidableEq, Repr

/-- `ReolinkHubClient.checkErrors`.  `Date.now() - this.conmnectionTime` is
modelled with truncated `Nat` subtraction; when `now < conmnectionTime` the
JavaScript difference is negative and the `> 1h` test is false, exactly as
the truncated difference `0` makes it false here. -/
def checkErrors (s : ClientState) (now : Nat) (lo1 : LoginOutcome)
    (logoutBody : List RespEntry) (lo2 : LoginOutcome)
    (rebootBody : List RespEntry) :
    ClientState × Option CheckAction × List NetCall :=
  if s.rebooting then (s, none, [])
  else if now - s.conmnectionTime > 1000 * 60 * 60 ∨ s.loginFirstCount > 5 then
    let r := reconnect s now lo1 logoutBody lo2
    (r.1, some CheckAction.reconnect, r.2)
  else if s.maxSessionsCount > 5 then
    let r := reboot s now lo1 rebootBody
    (r.state, some CheckAction.reboot, r.trace)
  else (s, none, [])

/-! ## Motion decay (`ReolinkCamera.processEvents`, `src/camera.ts`) -/

/-- The camera's motion fields: `motionDetected` and the pending
`setTimeout` deadline (absolute time at which the timer would fire;
`none` when no timer is pending). -/
structure MotionState where
  motionDetected : Bool := false
  motionTimeout : Option Nat := none
deriving DecidableEq, Repr

/-- The motion-flag branch of `ReolinkCamera.processEvents`: acts only when
the reading differs from the current flag; a rising edge arms the decay
timer at `now + motionTimeout * 1000` (the setting is in seconds), a falling
edge clears the flag and cancels the timer. -/
def processEventsMotion (st : MotionState) (now : Nat)
    (motionTimeoutSetting : Nat) (reading : Bool) : MotionState :=
  if reading ≠ st.motionDetected then
    if reading then
      { motionDetected := true
        motionTimeout := some (now + motionTimeoutSetting * 1000) }
    else
      { motionDetected := false, motionTimeout := none }
  else st

/-- Callback of the decay timer (`() => this.motionDetected = false`);
after it runs no timer is pending. -/
def fireMotionTimeout (_st : MotionState) : MotionState :=
  { motionDetected := false, motionTimeout := none }

/-! ## Poll tick decisions (`ReolinkProvider.init`, `src/main.ts`) -/

/-- `DeviceInputData` from `src/reolink-api.ts`: the per-channel capability
flags the provider puts into `devicesMap` each tick. -/
structure DeviceInputData where
  hasBattery : Bool := false
  hasPirEvents : Bool := false
  hasFloodlight : Bool := false
  hasPtz : Bool := false
  sleeping : Bool := false
deriving DecidableEq, Repr

/-- The provider's throttling timestamps (`lastErrorsCheck`,
`lastHubInfoCheck`, `lastDevicesStatusCheck`).  `lastHubInfoCheck` starts
`undefined`. -/
structure PollState where
  lastErrorsCheck : Nat := 0
  lastHubInfoCheck : Option Nat := none
  lastDevicesStatusCheck : Nat := 0
deriving DecidableEq, Repr

/-- Which batches one poll tick decides to issue. -/
structure TickBatches where
  errorsChecked : Bool
  hubInfoFetched : Bool
  eventsSent : Bool
  batterySent : Bool
  statusSent : Bool
deriving DecidableEq, Repr

/-- The decision structure of the `setInterval` body in
`ReolinkProvider.init`: `devices` is the content of `devicesMap` (cameras
whose abilities have resolved).  The events batch requires `anyFound`, the
battery batch requires only `anyBattery`, and the extended-status batch
requires a 15 s elapse of `lastDevicesStatusCheck` and `anyAwaken`. -/
def tickRun (ps : PollState) (now : Nat)
    (devices : List (Nat × DeviceInputData)) : TickBatches × PollState :=
  let errorsChecked := decide (now - ps.lastErrorsCheck > 60 * 1000)
  let ps1 := if errorsChecked then { ps with lastErrorsCheck := now } else ps
  let hubInfoFetched :=
    ps.lastHubInfoCheck.isNone ||
      decide (now - ps.lastHubInfoCheck.getD 0 > 1000 * 60 * 5)
  let ps2 := if hubInfoFetched then { ps1 with lastHubInfoCheck := some now } else ps1
  let anyFound := !devices.isEmpty
  let anyBattery := devices.any (·.2.hasBattery)
  let anyAwaken := devices.any (fun d => !d.2.sleeping)
  let statusSent := decide (now - ps.lastDevicesStatusCheck > 15 * 1000) && anyAwaken
  let ps3 := if statusSent then { ps2 with lastDevicesStatusCheck := now } else ps2
  (⟨errorsChecked, hubInfoFetched, anyFound, anyBattery, statusSent⟩, ps3)

/-! ## Batched request bodies (`src/reolink-api.ts`) -/

/-- One element of a batched command request, keeping the fields the claims
inspect: the command name and the channel of its `param` (if any). -/
structure ReqCmd where
  cmd : String
  channel : Option Nat := none
deriving DecidableEq, Repr

/-- The request body built by `ReolinkHubClient.getBatteryInfo`: a leading
`GetChannelstatus` followed by one `GetBatteryInfo` per battery-capable
channel, in map order. -/
def mkBatteryBody (m : List (Nat × DeviceInputData)) : List ReqCmd :=
  let channels := (m.filter (·.2.hasBattery)).map (·.1)
  ⟨"GetChannelstatus", none⟩ ::
    channels.map (fun channel => ⟨"GetBatteryInfo", some channel⟩)

/-! ## Events demultiplexer (`ReolinkHubClient.getEvents`) -/

/-- `AIDetectionState`: the per-class object destructured by
`processDetections`. -/
structure AIDetectionState where
  alarm_state : Nat := 0
  support : Nat := 0
deriving DecidableEq, Repr

/-- The `value` object of an events response element: `channel` is `none`
when absent or non-numeric (`Number(channel)` is `NaN` and the element is
skipped), `state` is the truthiness of `value.state` (`GetMdState`), and
`ai` is the AI object as an association list of class keys
(`GetEvents`/`GetAiState`). -/
structure EvValue where
  channel : Option Nat := none
  state : Option Bool := none
  ai : Option (List (String × AIDetectionState)) := none
deriving DecidableEq, Repr

/-- One element of the events response body. -/
structure EvEntry where
  cmd : Option String := none
  value : Option EvValue := none
deriving DecidableEq, Repr

/-- `processDetections` inside `getEvents`: walk the keys of the AI object
(`?? {}` when absent), skip `channel`, and keep the keys whose
`alarm_state` is truthy. -/
def processDetections (ai : Option (List (String × AIDetectionState))) :
    List String :=
  (ai.getD []).foldl
    (fun classes kv =>
      if kv.1 = "channel" then classes
      else if kv.2.alarm_state ≠ 0 then classes ++ [kv.1]
      else classes)
    []

/-- `EventsResponse` from `src/reolink-api.ts`; `entries` keeps the raw
elements pushed for the channel. -/
structure EventsResponse where
  motion : Bool := false
  objects : List String := []
  entries : List EvEntry := []
deriving DecidableEq, Repr

/-- Replace the binding of `c` in an association list, or append it — the
update done by `ret[numericChannel] = elem` on the accumulator object. -/
def setEntry {α : Type} : List (Nat × α) → Nat → α → List (Nat × α)
  | [], c, v => [(c, v)]
  | (k, w) :: t, c, v =>
    if k = c then (c, v) :: t else (k, w) :: setEntry t c v

/-- Read the binding of `c` in an association list — the JavaScript record
access `obj[channel]`, `undefined` when the key is absent. -/
def lookupEntry {α : Type} : List (Nat × α) → Nat → Option α
  | [], _ => none
  | (k, w) :: t, c => if k = c then some w else lookupEntry t c

/-- The per-element update of the events accumulator: push the element on
`entries`, then dispatch on its `cmd` (`GetEvents` sets both the motion
flag — the `other` class — and the object classes; `GetMdState` sets the
motion flag from `value.state`; `GetAiState` sets the object classes). -/
def evApply (item : EvEntry) (elem0 : EventsResponse) : EventsResponse :=
  let elem1 := { elem0 with entries := elem0.entries ++ [item] }
  if item.cmd = some "GetEvents" then
    let classes := processDetections (item.value.bind (·.ai))
    { elem1 with
        motion := classes.contains "other"
        objects := classes.filter (fun cl => cl ≠ "other") }
  else if item.cmd = some "GetMdState" then
    { elem1 with motion := (item.value.bind (·.state)).getD false }
  else if item.cmd = some "GetAiState" then
    { elem1 with objects := processDetections (item.value.bind (·.ai)) }
  else elem1

/-- Processing of one element of the events response body: skip it when its
`value.channel` is not numeric, otherwise create (`{ motion: false,
objects: [], entries: [] }`) or update the channel's accumulator. -/
def evStep (ret : List (Nat × EventsResponse)) (item : EvEntry) :
    List (Nat × EventsResponse) :=
  match item.value.bind (·.channel) with
  | none => ret
  | some ch => setEntry ret ch (evApply item ((lookupEntry ret ch).getD {}))

/-- The demultiplexing loop of `getEvents` (`for (const item of
response.body)`), producing the `parsed` record keyed by channel. -/
def eventsDemux (body : List EvEntry) : List (Nat × EventsResponse) :=
  body.foldl evStep []

/-- One element of the events request body: every command built by
`getEvents` carries a channel. -/
structure EvReq where
  cmd : String
  channel : Nat
deriving DecidableEq, Repr

/-- The events request body built by `getEvents`: one `GetEvents` command
for a PIR-capable channel, a `GetMdState`/`GetAiState` pair otherwise, in
map order. -/
def mkEventsBody (m : List (Nat × DeviceInputData)) : List EvReq :=
  m.flatMap fun cd =>
    if cd.2.hasPirEvents then [⟨"GetEvents", cd.1⟩]
    else [⟨"GetMdState", cd.1⟩, ⟨"GetAiState", cd.1⟩]

/-- A positionally-aligned response element for one request command: the
element carries the request's `cmd`, its channel, and the hub's result for
that command, drawn from the oracles `evAi` (GetEvents AI object), `mdSt`
(GetMdState state) and `aiAi` (GetAiState AI object). -/
def alignedItem (evAi : Nat → List (String × AIDetectionState))
    (mdSt : Nat → Bool) (aiAi : Nat → List (String × AIDetectionState))
    (r : EvReq) : EvEntry :=
  if r.cmd = "GetEvents" then
    { cmd := some "GetEvents"
      value := some { channel := some r.channel, ai := some (evAi r.channel) } }
  else if r.cmd = "GetMdState" then
    { cmd := some "GetMdState"
      value := some { channel := some r.channel, state := some (mdSt r.channel) } }
  else
    { cmd := some "GetAiState"
      value := some { channel := some r.channel, ai := some (aiAi r.channel) } }

/-- The positionally-aligned response to a request body: element `i` answers
request `i`. -/
def alignedResp (evAi : Nat → List (String × AIDetectionState))
    (mdSt : Nat → Bool) (aiAi : Nat → List (String × AIDetectionState))
    (reqs : List EvReq) : List EvEntry :=
  reqs.map (alignedItem evAi mdSt aiAi)

/-- What the demultiplexer should hand a channel that owns its own aligned
results: for a PIR-capable channel the `GetEvents` classes (motion is the
`other` class, objects the rest); otherwise `GetMdState`'s state and
`GetAiState`'s classes. -/
def expectedEvents (evAi : Nat → List (String × AIDetectionState))
    (mdSt : Nat → Bool) (aiAi : Nat → List (String × AIDetectionState))
    (c : Nat) (hasPirEvents : Bool) : EventsResponse :=
  if hasPirEvents then
    let classes := processDetections (some (evAi c))
    { motion := classes.contains "other"
      objects := classes.filter (fun cl => cl ≠ "other")
      entries := [alignedItem evAi mdSt aiAi ⟨"GetEvents", c⟩] }
  else
    { motion := mdSt c
      objects := processDetections (some (aiAi c))
      entries := [alignedItem evAi mdSt aiAi ⟨"GetMdState", c⟩,
                  alignedItem evAi mdSt aiAi ⟨"GetAiState", c⟩] }

/-! ## Extended-status demultiplexer (`ReolinkHubClient.getStatusInfo`) -/

/-- A PTZ preset element as filtered by the demultiplexer
(`preset.enable === 1`). -/
structure PtzPresetEntry where
  id : Nat := 0
  name : String := ""
  enable : Nat := 0
deriving DecidableEq, Repr

/-- The `value` object of an extended-status response element, keeping the
fields the demultiplexer reads: `value.WhiteLed.state`,
`value.pirInfo.enable` and `value.PtzPreset`. -/
structure StatusValue where
  whiteLedState : Option Nat := none
  pirEnable : Option Nat := none
  ptzPresets : Option (List PtzPresetEntry) := none
deriving DecidableEq, Repr

/-- One element of the extended-status response body. -/
structure StatusEntry where
  value : Option StatusValue := none
deriving DecidableEq, Repr

/-- The per-channel `chanelIndex` record built by `getStatusInfo` while it
pushes commands (each field holds `body.length - 1` after the corresponding
push, `none` when the command was not pushed). -/
structure ChanIdx where
  osd : Option Nat := none
  floodlight : Option Nat := none
  pir : Option Nat := none
  presets : Option Nat := none
deriving DecidableEq, Repr

/-- The command-building `forEach` of `getStatusInfo`: starting from a body
of length `len`, returns the commands pushed and the `chanelIndex`
association (one record per channel, `{}` for a sleeping channel). -/
def buildStatus : List (Nat × DeviceInputData) → Nat →
    List ReqCmd × List (Nat × ChanIdx)
  | [], _ => ([], [])
  | (channel, d) :: rest, len =>
    if d.sleeping then
      let r := buildStatus rest len
      (r.1, (channel, {}) :: r.2)
    else
      let n1 := len + 1
      let n2 := if d.hasFloodlight then n1 + 1 else n1
      let n3 := if d.hasPirEvents then n2 + 1 else n2
      let n4 := if d.hasPtz then n3 + 1 else n3
      let cmds : List ReqCmd :=
        [⟨"GetOsd", some channel⟩] ++
          (if d.hasFloodlight then [⟨"GetWhiteLed", some channel⟩] else []) ++
          (if d.hasPirEvents then [⟨"GetPirInfo", some channel⟩] else []) ++
          (if d.hasPtz then [⟨"GetPtzPreset", some channel⟩] else [])
      let ci : ChanIdx :=
        { osd := some len
          floodlight := if d.hasFloodlight then some n1 else none
          pir := if d.hasPirEvents then some n2 else none
          presets := if d.hasPtz then some n3 else none }
      let r := buildStatus rest n4
      (cmds ++ r.1, (channel, ci) :: r.2)

/-- `DeviceStatusResponse` from `src/reolink-api.ts` as filled by the
demultiplexing `forEach`.  A `none` field was never assigned (the outer
`Option` of `osd`/`ptzPresets` distinguishes "assigned a possibly-absent
value" from "not assigned"). -/
structure DeviceStatusResponse where
  osd : Option (Option StatusEntry) := none
  floodlightEnabled : Option Bool := none
  pirEnabled : Option Bool := none
  ptzPresets : Option (Option (List PtzPresetEntry)) := none
  entries : List (Option StatusEntry) := []
deriving DecidableEq, Repr

/-- The per-channel body of the demultiplexing `forEach` of
`getStatusInfo`, once `chanelIndex[channel]` has been destructured into
`ci`: every access into the response body is optional-chained. -/
def statusDemuxChannel (ci : ChanIdx) (d : DeviceInputData)
    (respBody : List StatusEntry) : DeviceStatusResponse :=
  let r0 : DeviceStatusResponse := {}
  let r1 :=
    match ci.osd with
    | some i =>
      let osdEntry := respBody.get? i
      { r0 with osd := some osdEntry, entries := r0.entries ++ [osdEntry] }
    | none => r0
  let r2 :=
    match ci.floodlight with
    | some i =>
      if d.hasFloodlight then
        let floodlightEntry := respBody.get? i
        { r1 with
            floodlightEnabled :=
              some (((floodlightEntry.bind (·.value)).bind (·.whiteLedState))
                = some 1)
            entries := r1.entries ++ [floodlightEntry] }
      else r1
    | none => r1
  let r3 :=
    match ci.pir with
    | some i =>
      if d.hasPirEvents then
        let pirEntry := respBody.get? i
        { r2 with
            pirEnabled :=
              some (((pirEntry.bind (·.value)).bind (·.pirEnable)) = some 1)
            entries := r2.entries ++ [pirEntry] }
      else r2
    | none => r2
  match ci.presets with
  | some i =>
    if d.hasPtz then
      let ptzPresetsEntry := respBody.get? i
      { r3 with
          ptzPresets :=
            some (((ptzPresetsEntry.bind (·.value)).bind (·.ptzPresets)).map
              (fun l => l.filter (fun preset => preset.enable = 1)))
          entries := r3.entries ++ [ptzPresetsEntry] }
    else r3
  | none => r3

/-- One iteration of the demultiplexing `forEach` of `getStatusInfo`:
destructuring `chanelIndex[channel]` throws a `TypeError` when the record
has no entry for the channel, hence the `Except`. -/
def statusDemuxStep (idx : List (Nat × ChanIdx)) (respBody : List StatusEntry)
    (acc : List (Nat × DeviceStatusResponse)) (cd : Nat × DeviceInputData) :
    Except String (List (Nat × DeviceStatusResponse)) :=
  match lookupEntry idx cd.1 with
  | none => Except.error "TypeError: cannot destructure undefined"
  | some ci => Except.ok (acc ++ [(cd.1, statusDemuxChannel ci cd.2 respBody)])

/-- The demultiplexing `forEach` of `getStatusInfo`. -/
def statusDemux (m : List (Nat × DeviceInputData))
    (respBody : List StatusEntry) :
    Except String (List (Nat × DeviceStatusResponse)) :=
  m.foldlM (statusDemuxStep (buildStatus m 0).2 respBody) []

/-! ## Battery demultiplexer (`ReolinkHubClient.getBatteryInfo`) -/

/-- One element of `GetChannelstatus`'s `value.status` array. -/
structure ChanStatus where
  channel : Nat := 0
  sleep : Option Nat := none
  uid : Option String := none
deriving DecidableEq, Repr

/-- The `Battery` object of a `GetBatteryInfo` response element. -/
structure BatteryObj where
  batteryPercent : Option Nat := none
deriving DecidableEq, Repr

/-- The `value` object of a battery-batch response element. -/
structure BatValue where
  battery : Option BatteryObj := none
  status : Option (List ChanStatus) := none
deriving DecidableEq, Repr

/-- One element of the battery-batch response body. -/
structure BatEntry where
  value : Option BatValue := none
deriving DecidableEq, Repr

/-- `BatteryInfoResponse` from `src/reolink-api.ts`: `batteryLevel` is
`batteryInfoEntry?.batteryPercent` (may be absent), `sleeping` is
`channelStatusEntry?.sleep === 1`. -/
structure BatteryInfoResponse where
  batteryLevel : Option Nat := none
  sleeping : Bool := false
  entries : List (Option BatteryObj) × Option ChanStatus := ([], none)
deriving DecidableEq, Repr

/-- The `chanelIndex` record of `getBatteryInfo`: the body starts with
`GetChannelstatus`, so the battery channels get indices `1, 2, …` in
order. -/
def mkBatteryIdx : List Nat → Nat → List (Nat × Nat)
  | [], _ => []
  | c :: rest, len => (c, len) :: mkBatteryIdx rest (len + 1)

/-- The demultiplexing loop of `getBatteryInfo`.  Every access is
optional-chained (`body?.[i]?.value?.Battery`,
`channelStatusData?.value?.status?.find`), and a missing `chanelIndex` entry
indexes the body with `undefined`, yielding `undefined` without throwing —
modelled by `Option.bind`/`get?` throughout; the result is total. -/
def batteryDemux (m : List (Nat × DeviceInputData))
    (respBody : List BatEntry) : List (Nat × BatteryInfoResponse) :=
  let channels := (m.filter (·.2.hasBattery)).map (·.1)
  let idx := mkBatteryIdx channels 1
  let channelStatusData := respBody.get? 0
  channels.map fun channel =>
    let batteryInfoEntry :=
      (((lookupEntry idx channel).bind (fun i => respBody.get? i)).bind
        (·.value)).bind (·.battery)
    let channelStatusEntry :=
      (((channelStatusData.bind (·.value)).bind (·.status)).getD []).find?
        (fun elem => elem.channel = channel)
    (channel,
      { batteryLevel := batteryInfoEntry.bind (·.batteryPercent)
        sleeping := (channelStatusEntry.bind (·.sleep)) = some 1
        entries := ([batteryInfoEntry], channelStatusEntry) })

/-! ## Devices-info demultiplexer (`ReolinkHubClient.getDevicesInfo`) -/

/-- One element of the devices-info response body; the payload of `value`
is irrelevant to the claims and is modelled as an opaque number. -/
structure DevEntry where
  cmd : Option String := none
  value : Option Nat := none
  error : Option Int := none
deriving DecidableEq, Repr

/-- `DeviceInfoResponse` from `src/reolink-api.ts`. -/
structure DeviceInfoResponse where
  channelStatus : Option ChanStatus := none
  ai : Option (Option Nat) := none
  channelInfo : Option (Option Nat) := none
  entries : List (Option DevEntry) := []
deriving DecidableEq, Repr

/-- The demultiplexing loop of `getDevicesInfo`: for the `i`-th channel it
reads the response at `i * 3` and `i * 3 + 1` (the request pushed two
commands per channel) and then evaluates `chnInfoItem.error` and
`aiItem.error` — unguarded accesses that throw a `TypeError` when the
entry is absent. -/
def devicesDemux (channels : List Nat) (respBody : List DevEntry)
    (channelStatusList : Option (List ChanStatus)) :
    Except String (List (Nat × DeviceInfoResponse)) :=
  (channels.enum.foldlM
    (fun acc ic =>
      let indexMultilpier := ic.1 * 3
      let chnInfoItem := respBody.get? indexMultilpier
      let aiItem := respBody.get? (indexMultilpier + 1)
      let channelStatus :=
        (channelStatusList.getD []).find? (fun item => item.channel = ic.2)
      match chnInfoItem with
      | none =>
        Except.error "TypeError: cannot read properties of undefined"
      | some ci =>
        match aiItem with
        | none =>
          Except.error "TypeError: cannot read properties of undefined"
        | some ai =>
          Except.ok (acc ++ [(ic.2,
            { entries := [chnInfoItem, aiItem]
              channelInfo := if ci.error.isNone then some ci.value else none
              ai := if ai.error.isNone then some ai.value else none
              channelStatus := channelStatus })]))
    ([] : List (Nat × DeviceInfoResponse)))

/-! ## PIR state (`ReolinkHubClient.getPirState` / `setPirState`) -/

/-- The `pirInfo` object read back by `getPirState`
(`response?.body?.[0]?.value?.pirInfo`). -/
structure PirInfo where
  enable : Option Nat := none
deriving DecidableEq, Repr

/-- The object returned by `getPirState`: always truthy, with `state`
possibly `undefined` when the response entry carried no `pirInfo`. -/
structure GetPirResult where
  enabled : Bool := false
  state : Option PirInfo := none
deriving DecidableEq, Repr

/-- The wire commands issued by `setPirState` after the initial
`GetPirInfo` read-back `currentPir`: the early return fires when
`currentPir.state?.enable === newState` (the `!currentPir` disjunct is
never true, the read-back is always an object); otherwise exactly one
`SetPirInfo` command is posted. -/
def setPirCommands (channel : Nat) (currentPir : GetPirResult) (onFlag : Bool) :
    List ReqCmd :=
  let newState : Nat := if onFlag then 1 else 0
  if (currentPir.state.bind (·.enable)) = some newState then []
  else [⟨"SetPirInfo", some channel⟩]

/-- The full wire trace of `setPirState`: the `GetPirInfo` read issued by
`getPirState`, then whatever `setPirCommands` decides. -/
def setPirTrace (channel : Nat) (currentPir : GetPirResult) (onFlag : Bool) :
    List ReqCmd :=
  ⟨"GetPirInfo", some channel⟩ :: setPirCommands channel currentPir onFlag

/-! ## Video clips (`ReolinkHubClient.getVideoClips`) -/

/-- `VideoClipOptions` as used by `getVideoClips`: `startTime` is required
by the code (it dereferences `options.startTime` unconditionally),
`endTime` optional.  Times are epoch milliseconds. -/
structure VideoClipOptions where
  startTime : Nat
  endTime : Option Nat := none
deriving DecidableEq, Repr

/-- The `SearchResult` object of a Search response element; files are kept
as opaque names. -/
structure SearchResultObj where
  file : Option (List String) := none
deriving DecidableEq, Repr

/-- The `value` object of a Search response element. -/
structure ClipValue where
  searchResult : Option SearchResultObj := none
deriving DecidableEq, Repr

/-- One element of the Search response body. -/
structure ClipEntry where
  value : Option ClipValue := none
  error : Option Int := none
deriving DecidableEq, Repr

/-- Milliseconds per day.  The source compares `getDate()` day-of-month
values in local time; the claims under verification do not depend on the
calendar details, which are modelled on epoch days. -/
def msPerDay : Nat := 86400000

/-- The end-time normalisation of `getVideoClips`: when `endTime` is absent
or falls on a later day than `startTime`, it is clamped to 23:59:59 of
`startTime`'s day (the milliseconds field of the copied date survives the
`setHours/setMinutes/setSeconds` calls). -/
def computeEndTime (startTime : Nat) (endTime : Option Nat) : Nat :=
  let clamp :=
    (startTime / msPerDay) * msPerDay +
      (23 * 3600000 + 59 * 60000 + 59 * 1000) + startTime % 1000
  match endTime with
  | none => clamp
  | some e => if e / msPerDay > startTime / msPerDay then clamp else e

/-- The Search command parameters built by `getVideoClips`. -/
structure SearchCmd where
  channel : Nat
  streamType : String
  startTime : Nat
  endTime : Nat
deriving DecidableEq, Repr

/-- The single-element request body of `getVideoClips`. -/
def mkSearchBody (channel : Nat) (streamType : String)
    (options : VideoClipOptions) : List SearchCmd :=
  [{ channel := channel
     streamType := streamType
     startTime := options.startTime
     endTime := computeEndTime options.startTime options.endTime }]

/-- `ReolinkHubClient.getVideoClips`.  `options.startTime` is dereferenced
before the `try` block, so an absent `options` throws a `TypeError` that
propagates to the caller; inside the `try`, a hub failure (`hub =
.error`) is caught and yields `[]`, a first-entry error object yields
`[]`, and otherwise `value?.SearchResult?.File ?? []` is returned. -/
def getVideoClips (channel : Nat) (options : Option VideoClipOptions)
    (streamType : String) (hub : Except Unit (List ClipEntry)) :
    Except String (List String) :=
  match options with
  | none =>
    Except.error "TypeError: cannot read startTime of undefined"
  | some o =>
    let _body := mkSearchBody channel streamType o
    match hub with
    | Except.error _ => Except.ok []
    | Except.ok respBody =>
      let firstEntry := respBody.get? 0
      if (firstEntry.bind (·.error)).isSome then Except.ok []
      else
        Except.ok
          ((((firstEntry.bind (·.value)).bind (·.searchResult)).bind
            (·.file)).getD [])

/-! ## Auxiliary definitions and concrete scenario states -/

/-- Whether an `Except` completed normally (no JavaScript exception). -/
def exceptOk {ε α : Type} : Except ε α → Bool
  | Except.ok _ => true
  | Except.error _ => false

/-- A generic credential-exchange outcome used by the concrete scenarios. -/
def anyLogin : LoginOutcome :=
  { parameters := [("token", "t")], leaseTimeSeconds := 3600 }

/-- A rebooting client whose token lease expired at time 5: created by a
`reboot()` call whose grace timer has not fired yet. -/
def rebootingExpiredState : ClientState :=
  { tokenLease := some 5
    parameters := some [("token", "t")]
    loggedIn := true
    rebooting := true
    conmnectionTime := 0 }

/-- A healthy logged-in client with nonzero error counters. -/
def countersState : ClientState :=
  { tokenLease := some 1000
    parameters := some [("token", "t")]
    loggedIn := true
    conmnectionTime := 0
    maxSessionsCount := 3
    loginFirstCount := 2 }

/-- A healthy logged-in client whose consecutive auth-error counter has
exceeded the threshold of 5. -/
def authErrorsState : ClientState :=
  { tokenLease := some 1000
    parameters := some [("token", "t")]
    loggedIn := true
    conmnectionTime := 0
    maxSessionsCount := 0
    loginFirstCount := 6 }

/-- The outcome of the first periodic error check on `authErrorsState`. -/
def authErrorsCheck1 : ClientState × Option CheckAction × List NetCall :=
  checkErrors authErrorsState 10 anyLogin [] anyLogin []

/-- The outcome of the following periodic error check, ten milliseconds
later, with no request cycle in between. -/
def authErrorsCheck2 : ClientState × Option CheckAction × List NetCall :=
  checkErrors authErrorsCheck1.1 20 anyLogin [] anyLogin []

/-- Poll-loop timestamps of a provider that has just completed a battery
check at time 1000000 (the hub-info check already done at 0). -/
def pollStart : PollState :=
  { lastErrorsCheck := 0, lastHubInfoCheck := some 0, lastDevicesStatusCheck := 0 }

/-- A single registered battery-capable channel. -/
def batteryDevices : List (Nat × DeviceInputData) :=
  [(0, { hasBattery := true })]

/-- First poll tick at time 1000000. -/
def batteryTick1 : TickBatches × PollState := tickRun pollStart 1000000 batteryDevices

/-- Second poll tick one second later. -/
def batteryTick2 : TickBatches × PollState := tickRun batteryTick1.2 1001000 batteryDevices

/-- Two-channel batch for the events-demux scenario: channel 0 without PIR
events, channel 1 with PIR events. -/
def witnessChannels : List (Nat × DeviceInputData) :=
  [(0, { hasPirEvents := false }), (1, { hasPirEvents := true })]

/-- GetEvents AI results for the scenario channels. -/
def witnessEvAi : Nat → List (String × AIDetectionState) :=
  fun _ => [("people", { alarm_state := 1, support := 1 }),
            ("other", { alarm_state := 1, support := 1 })]

/-- GetMdState results for the scenario channels. -/
def witnessMd : Nat → Bool := fun _ => true

/-- GetAiState AI results for the scenario channels. -/
def witnessAi : Nat → List (String × AIDetectionState) :=
  fun _ => [("dog_cat", { alarm_state := 1, support := 1 })]

/-! ## Helper lemmas about the session client -/

theorem login_rebooting (s : ClientState) (now : Nat) (lo : LoginOutcome) :
    (login s now lo).1.rebooting = s.rebooting := by
  unfold login
  split
  · rfl
  · split
    · rfl
    · rfl

theorem login_maxSessionsCount (s : ClientState) (now : Nat) (lo : LoginOutcome) :
    (login s now lo).1.maxSessionsCount = s.maxSessionsCount := by
  unfold login
  split
  · rfl
  · split
    · rfl
    · rfl

theorem login_loginFirstCount (s : ClientState) (now : Nat) (lo : LoginOutcome) :
    (login s now lo).1.loginFirstCount = s.loginFirstCount := by
  unfold login
  split
  · rfl
  · split
    · rfl
    · rfl

theorem login_no_httpRequest (s : ClientState) (now : Nat) (lo : LoginOutcome) :
    NetCall.httpRequest ∉ (login s now lo).2 := by
  unfold login
  split
  · simp
  · split
    · simp
    · simp

theorem processErrors_of_no_error (ms lf : Nat) (body : List RespEntry)
    (h : body.filterMap (·.error) = []) :
    processErrors ms lf body = (ms, lf) := by
  unfold processErrors
  simp [h]

theorem requestWithLogin_counters_of_no_error (s : ClientState) (now : Nat)
    (lo : LoginOutcome) (body : List RespEntry)
    (h : body.filterMap (·.error) = []) :
    (requestWithLogin s now lo body).1.maxSessionsCount = s.maxSessionsCount ∧
    (requestWithLogin s now lo body).1.loginFirstCount = s.loginFirstCount := by
  have hms := login_maxSessionsCount s now lo
  have hlf := login_loginFirstCount s now lo
  unfold requestWithLogin
  cases hp : (login s now lo).1.parameters with
  | none => simp only [hp]; exact ⟨hms, hlf⟩
  | some v =>
    simp only [hp]
    by_cases hr : (login s now lo).1.rebooting = true
    · simp only [hr, if_true]
      exact ⟨hms, hlf⟩
    · simp only [if_neg hr]
      simp [processErrors_of_no_error _ _ _ h, hms, hlf]

theorem requestWithLogin_rebooting_result (s : ClientState) (now : Nat)
    (lo : LoginOutcome) (body : List RespEntry) (h : s.rebooting = true) :
    NetCall.httpRequest ∉ (requestWithLogin s now lo body).2.2 ∧
    (requestWithLogin s now lo body).2.1 = none := by
  have hreb := login_rebooting s now lo
  have hhttp := login_no_httpRequest s now lo
  rw [h] at hreb
  unfold requestWithLogin
  cases hp : (login s now lo).1.parameters with
  | none => simp only [hp]; exact ⟨hhttp, trivial⟩
  | some v =>
    simp only [hp, hreb, if_true]
    exact ⟨hhttp, trivial⟩

/-! ## C1 -/

/-- C1: contrary to the claim, `reboot()` never issues the Reboot command.
Setting `rebooting := true` happens before `requestWithLogin` is called, and
that method's own `rebooting` guard returns early, so for every starting
state no HTTP command request appears in the trace and the returned
acknowledgement value is `undefined`; the 60-second timer that clears
`rebooting` and both error counters is scheduled as claimed. -/
theorem reboot_never_issues_request (s : ClientState) (now : Nat)
    (lo : LoginOutcome) (body : List RespEntry) :
    NetCall.httpRequest ∉ (reboot s now lo body).trace ∧
    (reboot s now lo body).value = none ∧
    (reboot s now lo body).state.rebooting = true ∧
    (reboot s now lo body).graceMs = 1000 * 60 ∧
    fireRebootTimer (reboot s now lo body).state =
      { (reboot s now lo body).state with
          rebooting := false, maxSessionsCount := 0, loginFirstCount := 0 } := by
  have hmain :=
    requestWithLogin_rebooting_result { s with rebooting := true } now lo body rfl
  have hreb :
      (requestWithLogin { s with rebooting := true } now lo body).1.rebooting
        = true := by
    have hlr := login_rebooting { s with rebooting := true } now lo
    unfold requestWithLogin
    cases hp : (login { s with rebooting := true } now lo).1.parameters with
    | none => simp only [hp]; exact hlr
    | some v => simp only [hp, hlr, if_true]
  refine ⟨hmain.1, ?_, hreb, rfl, rfl⟩
  show ((requestWithLogin { s with rebooting := true } now lo body).2.1.bind
      (·.get? 0)).bind (·.valueRspCode) = none
  rw [hmain.2]
  rfl

/-! ## C2 -/

/-- C2 counterexample: a `requestWithLogin` call made while `rebooting` is
true, on a client whose token lease has expired, performs a login
credential exchange — a network call — contradicting the claim that no
network call at all (including any login credential exchange) is performed
during the grace period. -/
theorem rebooting_call_performs_login_exchange :
    rebootingExpiredState.rebooting = true ∧
    (requestWithLogin rebootingExpiredState 10 anyLogin []).2.2 =
      [NetCall.loginExchange] := by
  exact ⟨rfl, rfl⟩

/-- C2 (amended): while `rebooting` is true, `requestWithLogin` never issues
the batched HTTP command request to the hub and returns `undefined`, but it
may still perform a login credential exchange beforehand. -/
theorem no_hub_request_while_rebooting (s : ClientState) (now : Nat)
    (lo : LoginOutcome) (body : List RespEntry) (h : s.rebooting = true) :
    NetCall.httpRequest ∉ (requestWithLogin s now lo body).2.2 ∧
    (requestWithLogin s now lo body).2.1 = none :=
  requestWithLogin_rebooting_result s now lo body h

/-- C2 witness: the amended theorem applied to the concrete rebooting
client. -/
theorem no_hub_request_while_rebooting_witness :
    NetCall.httpRequest ∉ (requestWithLogin rebootingExpiredState 10 anyLogin []).2.2 ∧
    (requestWithLogin rebootingExpiredState 10 anyLogin []).2.1 = none :=
  no_hub_request_while_rebooting rebootingExpiredState 10 anyLogin [] rfl

/-! ## C3 -/

/-- C3 counterexample: a request cycle that completes (a response is
returned) with a body containing no per-command error object leaves the
counters at their previous values 3 and 2 instead of resetting them to 0. -/
theorem noerror_cycle_keeps_counters :
    ([({} : RespEntry)].filterMap (·.error) = []) ∧
    (requestWithLogin countersState 10 anyLogin [{}]).2.1 = some [{}] ∧
    (requestWithLogin countersState 10 anyLogin [{}]).1.maxSessionsCount = 3 ∧
    (requestWithLogin countersState 10 anyLogin [{}]).1.loginFirstCount = 2 := by
  exact ⟨rfl, rfl, rfl, rfl⟩

/-- C3 (amended): a request cycle whose response body contains no
per-command error object leaves both consecutive error counters unchanged
(they are reset to 0 only by an error whose `rspCode` is neither -6 nor
-5). -/
theorem noerror_cycle_counters_unchanged (s : ClientState) (now : Nat)
    (lo : LoginOutcome) (body : List RespEntry)
    (h : body.filterMap (·.error) = []) :
    (requestWithLogin s now lo body).1.maxSessionsCount = s.maxSessionsCount ∧
    (requestWithLogin s now lo body).1.loginFirstCount = s.loginFirstCount :=
  requestWithLogin_counters_of_no_error s now lo body h

/-- C3 witness: the amended theorem applied to the concrete client with
counters 3 and 2. -/
theorem noerror_cycle_counters_unchanged_witness :
    (requestWithLogin countersState 10 anyLogin [{}]).1.maxSessionsCount =
      countersState.maxSessionsCount ∧
    (requestWithLogin countersState 10 anyLogin [{}]).1.loginFirstCount =
      countersState.loginFirstCount :=
  noerror_cycle_counters_unchanged countersState 10 anyLogin [{}] rfl

/-! ## C4 -/

/-- C4 counterexample: with the auth-error counter at 6 and no new errors,
the periodic check invokes `reconnect`, but the counter is still 6
afterwards, and the very next periodic check invokes `reconnect` again —
the claim's "exactly once, and both error counters are reset afterwards"
fails. -/
theorem checkErrors_reconnects_again :
    authErrorsCheck1.2.1 = some CheckAction.reconnect ∧
    authErrorsCheck1.1.loginFirstCount = 6 ∧
    authErrorsCheck2.2.1 = some CheckAction.reconnect := by
  exact ⟨rfl, rfl, rfl⟩

/-- C4 (amended): when the auth-error counter exceeds the threshold of 5
and the client is not rebooting, the periodic check invokes `reconnect`;
the counters are not reset by the check (given an error-free Logout
response), so subsequent checks keep invoking `reconnect` until a request
cycle carrying an error of another code clears the counter. -/
theorem checkErrors_reconnect_keeps_counter (s : ClientState) (now : Nat)
    (lo1 : LoginOutcome) (logoutBody : List RespEntry) (lo2 : LoginOutcome)
    (rebootBody : List RespEntry) (h1 : s.rebooting = false)
    (h2 : s.loginFirstCount > 5)
    (h3 : logoutBody.filterMap (·.error) = []) :
    (checkErrors s now lo1 logoutBody lo2 rebootBody).2.1 =
      some CheckAction.reconnect ∧
    (checkErrors s now lo1 logoutBody lo2 rebootBody).1.loginFirstCount =
      s.loginFirstCount := by
  have hcnt :=
    (requestWithLogin_counters_of_no_error s now lo1 logoutBody h3).2
  unfold checkErrors
  simp only [h1, Bool.false_eq_true, if_false,
    if_pos (Or.inr h2 :
      now - s.conmnectionTime > 1000 * 60 * 60 ∨ s.loginFirstCount > 5)]
  refine ⟨trivial, ?_⟩
  show (login ({ (requestWithLogin s now lo1 logoutBody).1 with
      tokenLease := none, parameters := some [] }) now lo2).1.loginFirstCount
      = s.loginFirstCount
  rw [login_loginFirstCount]
  exact hcnt

/-- C4 witness: the amended theorem applied to the concrete client with
auth-error counter 6. -/
theorem checkErrors_reconnect_keeps_counter_witness :
    (checkErrors authErrorsState 10 anyLogin [] anyLogin []).2.1 =
      some CheckAction.reconnect ∧
    (checkErrors authErrorsState 10 anyLogin [] anyLogin []).1.loginFirstCount =
      authErrorsState.loginFirstCount :=
  checkErrors_reconnect_keeps_counter authErrorsState 10 anyLogin [] anyLogin []
    rfl (by decide) rfl

/-! ## C5 -/

/-- C5 counterexample: with decay timeout D = 10 s, a motion flag set at
T = 0 has its timer armed for 10000; a further positive reading at
T' = 5000 leaves the deadline at 10000 instead of resetting it to
T' + D = 15000, contradicting the claim. -/
theorem positive_reading_does_not_extend_deadline :
    (processEventsMotion (processEventsMotion {} 0 10 true) 5000 10 true).motionTimeout
      = some 10000 ∧
    some (10000 : Nat) ≠ some (5000 + 10 * 1000) := by
  exact ⟨rfl, by decide⟩

/-- C5 (amended): the decay deadline is armed only on a clear-to-set
transition — a positive reading at time T with decay timeout D arms the
timer for T + D when the flag was clear, a positive reading while the flag
is already set changes nothing (the original deadline stands), a negative
reading clears the flag immediately, and the timer firing clears the
flag. -/
theorem motion_decay_behaviour (st : MotionState) (now D : Nat) :
    (st.motionDetected = false →
      processEventsMotion st now D true =
        { motionDetected := true, motionTimeout := some (now + D * 1000) }) ∧
    (st.motionDetected = true → processEventsMotion st now D true = st) ∧
    (st.motionDetected = true →
      processEventsMotion st now D false =
        { motionDetected := false, motionTimeout := none }) ∧
    (fireMotionTimeout st).motionDetected = false := by
  unfold processEventsMotion fireMotionTimeout
  cases h : st.motionDetected <;> simp [h]

/-- C5 witness: the amended theorem applied at the concrete run of the
counterexample (flag armed at time 0, positive reading at 5000). -/
theorem motion_decay_behaviour_witness :
    processEventsMotion {} 0 10 true =
      { motionDetected := true, motionTimeout := some (0 + 10 * 1000) } ∧
    processEventsMotion
        { motionDetected := true, motionTimeout := some 10000 } 5000 10 true =
      { motionDetected := true, motionTimeout := some 10000 } :=
  ⟨(motion_decay_behaviour {} 0 10).1 rfl,
   (motion_decay_behaviour
      { motionDetected := true, motionTimeout := some 10000 } 5000 10).2.1 rfl⟩

/-! ## C6 -/

/-- C6 counterexample: with one battery-capable channel registered, two
consecutive poll ticks one second apart both send the battery batch — the
second only 1000 ms after the previous battery check, under any
10–15-second battery interval — so the batch is not gated on a slower
battery interval. -/
theorem battery_batch_not_throttled :
    batteryTick1.1.batterySent = true ∧
    batteryTick2.1.batterySent = true ∧
    (1001000 - 1000000 : Nat) = 1000 ∧ (1000 : Nat) < 10 * 1000 := by
  exact ⟨rfl, rfl, rfl, by decide⟩

/-- C6 (amended): the consolidated battery+channel-status batch is built
and sent on every poll tick in which at least one battery-capable channel
is registered — there is no separate battery interval — and its
`GetBatteryInfo` commands cover exactly the battery-capable channels, in
registration order. -/
theorem battery_batch_every_tick :
    (∀ (ps : PollState) (now : Nat) (devices : List (Nat × DeviceInputData)),
      (tickRun ps now devices).1.batterySent = devices.any (·.2.hasBattery)) ∧
    (∀ m : List (Nat × DeviceInputData),
      (mkBatteryBody m).filterMap
          (fun c => if c.cmd = "GetBatteryInfo" then c.channel else none) =
        (m.filter (·.2.hasBattery)).map (·.1)) := by
  constructor
  · intro ps now devices
    rfl
  · intro m
    have haux : ∀ l : List Nat,
        List.filterMap (fun c => if c.cmd = "GetBatteryInfo" then c.channel else none)
          (l.map (fun channel =>
            ({ cmd := "GetBatteryInfo", channel := some channel } : ReqCmd))) = l := by
      intro l
      induction l with
      | nil => rfl
      | cons c t ih =>
        show c :: List.filterMap
            (fun c => if c.cmd = "GetBatteryInfo" then c.channel else none)
            (t.map (fun channel =>
              ({ cmd := "GetBatteryInfo", channel := some channel } : ReqCmd))) = c :: t
        rw [ih]
    exact haux ((m.filter (·.2.hasBattery)).map (·.1))

/-! ## C9 -/

/-- C9: `setPirState` is an idempotent no-op at the wire level — when the
PIR state read back reports an `enable` equal to the requested value, no
`SetPirInfo` command is sent (only the `GetPirInfo` read occurs); otherwise
exactly one `SetPirInfo` command is sent. -/
theorem setPirState_wire_idempotent (channel : Nat) (currentPir : GetPirResult)
    (onFlag : Bool) :
    (currentPir.state.bind (·.enable) = some (if onFlag then 1 else 0) →
      setPirCommands channel currentPir onFlag = [] ∧
      (setPirTrace channel currentPir onFlag).countP
        (fun c => decide (c.cmd = "SetPirInfo")) = 0) ∧
    (currentPir.state.bind (·.enable) ≠ some (if onFlag then 1 else 0) →
      (setPirTrace channel currentPir onFlag).countP
        (fun c => decide (c.cmd = "SetPirInfo")) = 1) := by
  unfold setPirTrace setPirCommands
  by_cases h : currentPir.state.bind (·.enable) = some (if onFlag then 1 else 0)
  · refine ⟨fun _ => ?_, fun hn => absurd h hn⟩
    rw [if_pos h]
    exact ⟨rfl, rfl⟩
  · refine ⟨fun hp => absurd hp h, fun _ => ?_⟩
    rw [if_neg h]
    rfl

/-- C9 witness: the theorem applied to two concrete read-backs — one whose
`enable` already matches the request (no `SetPirInfo` sent) and one whose
`enable` differs (exactly one `SetPirInfo` sent). -/
theorem setPirState_wire_idempotent_witness :
    (setPirCommands 0 { state := some { enable := some 1 } } true = [] ∧
      (setPirTrace 0 { state := some { enable := some 1 } } true).countP
        (fun c => decide (c.cmd = "SetPirInfo")) = 0) ∧
    (setPirTrace 0 { state := some { enable := some 0 } } true).countP
      (fun c => decide (c.cmd = "SetPirInfo")) = 1 :=
  ⟨(setPirState_wire_idempotent 0 { state := some { enable := some 1 } } true).1 rfl,
   (setPirState_wire_idempotent 0 { state := some { enable := some 0 } } true).2
     (by decide)⟩

/-! ## C10 -/

/-- C10 counterexample: calling `getVideoClips` with `options` absent
dereferences `options.startTime` before the `try` block and the resulting
`TypeError` propagates to the caller, even though the hub itself would have
answered normally — the claim "never propagates a failure for every input"
fails. -/
theorem getVideoClips_throws_without_options :
    getVideoClips 0 none "main" (Except.ok []) =
      Except.error "TypeError: cannot read startTime of undefined" := by
  exact rfl

/-- C10 (amended): once `options` is supplied, `getVideoClips` never
propagates a failure: a thrown request (hub failure) or a first response
entry carrying an error object yields the empty list, and otherwise the
response's `SearchResult.File` list is returned, defaulting to the empty
list when absent; with `options` absent the call throws before issuing any
request. -/
theorem getVideoClips_never_fails_with_options :
    (∀ (ch : Nat) (o : VideoClipOptions) (st : String)
        (hub : Except Unit (List ClipEntry)),
      ∃ l, getVideoClips ch (some o) st hub = Except.ok l) ∧
    (∀ (ch : Nat) (o : VideoClipOptions) (st : String),
      getVideoClips ch (some o) st (Except.error ()) = Except.ok []) ∧
    (∀ (ch : Nat) (o : VideoClipOptions) (st : String) (body : List ClipEntry),
      ((body.get? 0).bind (·.error)).isSome = true →
        getVideoClips ch (some o) st (Except.ok body) = Except.ok []) ∧
    (∀ (ch : Nat) (o : VideoClipOptions) (st : String) (body : List ClipEntry),
      ((body.get? 0).bind (·.error)).isSome = false →
        getVideoClips ch (some o) st (Except.ok body) =
          Except.ok (((((body.get? 0).bind (·.value)).bind
            (·.searchResult)).bind (·.file)).getD [])) := by
  have hok : ∀ (ch : Nat) (o : VideoClipOptions) (st : String)
      (body : List ClipEntry),
      getVideoClips ch (some o) st (Except.ok body) =
        if ((body.get? 0).bind (·.error)).isSome = true then Except.ok []
        else Except.ok (((((body.get? 0).bind (·.value)).bind
          (·.searchResult)).bind (·.file)).getD []) := by
    intro ch o st body
    rfl
  refine ⟨?_, ?_, ?_, ?_⟩
  · intro ch o st hub
    cases hub with
    | error e => exact ⟨[], rfl⟩
    | ok body =>
      rw [hok]
      by_cases h : ((body.get? 0).bind (·.error)).isSome = true
      · exact ⟨[], by rw [if_pos h]⟩
      · exact ⟨((((body.get? 0).bind (·.value)).bind (·.searchResult)).bind
          (·.file)).getD [], by rw [if_neg h]⟩
  · intro ch o st
    rfl
  · intro ch o st body h
    rw [hok, if_pos h]
  · intro ch o st body h
    rw [hok, if_neg (by rw [h]; exact Bool.false_ne_true)]

/-- C10 witness: the amended theorem applied to a concrete error-carrying
response and to a concrete successful response. -/
theorem getVideoClips_never_fails_with_options_witness :
    (getVideoClips 1 (some { startTime := 0 }) "main"
        (Except.ok [{ error := some (-9) }]) = Except.ok []) ∧
    (getVideoClips 1 (some { startTime := 0 }) "main"
        (Except.ok [{ value := some { searchResult := some { file := some ["a.mp4"] } } }]) =
      Except.ok ["a.mp4"]) :=
  ⟨getVideoClips_never_fails_with_options.2.2.1 1 { startTime := 0 } "main"
      [{ error := some (-9) }] rfl,
   getVideoClips_never_fails_with_options.2.2.2 1 { startTime := 0 } "main"
      [{ value := some { searchResult := some { file := some ["a.mp4"] } } }] rfl⟩

/-! ## Helper lemmas about association-list accumulators -/

theorem lookupEntry_setEntry_self {α : Type} (l : List (Nat × α)) (c : Nat)
    (v : α) : lookupEntry (setEntry l c v) c = some v := by
  induction l with
  | nil => simp [setEntry, lookupEntry]
  | cons kw t ih =>
    obtain ⟨k, w⟩ := kw
    unfold setEntry
    by_cases h : k = c
    · rw [if_pos h]
      simp [lookupEntry]
    · rw [if_neg h]
      unfold lookupEntry
      rw [if_neg h]
      exact ih

theorem lookupEntry_setEntry_ne {α : Type} (l : List (Nat × α)) (c c' : Nat)
    (v : α) (h : c' ≠ c) :
    lookupEntry (setEntry l c v) c' = lookupEntry l c' := by
  induction l with
  | nil =>
    show (if c = c' then some v else (none : Option α)) = none
    rw [if_neg (fun he => h he.symm)]
  | cons kw t ih =>
    obtain ⟨k, w⟩ := kw
    unfold setEntry
    by_cases hk : k = c
    · rw [if_pos hk]
      show (if c = c' then some v else lookupEntry t c') =
        (if k = c' then some w else lookupEntry t c')
      rw [if_neg (fun he => h he.symm),
        if_neg (fun he : k = c' => h (hk.symm.trans he).symm)]
    · rw [if_neg hk]
      show (if k = c' then some w else lookupEntry (setEntry t c v) c') =
        (if k = c' then some w else lookupEntry t c')
      by_cases hk' : k = c'
      · rw [if_pos hk', if_pos hk']
      · rw [if_neg hk', if_neg hk']
        exact ih

theorem evStep_eq (ret : List (Nat × EventsResponse)) (item : EvEntry)
    (c : Nat) (hch : item.value.bind (·.channel) = some c) :
    evStep ret item = setEntry ret c (evApply item ((lookupEntry ret c).getD {})) := by
  unfold evStep
  rw [hch]

theorem evStep_lookup_ne (ret : List (Nat × EventsResponse)) (item : EvEntry)
    (c : Nat) (h : item.value.bind (·.channel) ≠ some c) :
    lookupEntry (evStep ret item) c = lookupEntry ret c := by
  unfold evStep
  cases hch : item.value.bind (·.channel) with
  | none => rfl
  | some ch =>
    have hne : c ≠ ch := fun he => h (he ▸ hch)
    exact lookupEntry_setEntry_ne ret ch c _ hne

theorem evFold_frame (c : Nat) :
    ∀ (l : List EvEntry) (ret : List (Nat × EventsResponse)),
      (∀ item ∈ l, item.value.bind (·.channel) ≠ some c) →
      lookupEntry (List.foldl evStep ret l) c = lookupEntry ret c := by
  intro l
  induction l with
  | nil => intro ret _; rfl
  | cons a t ih =>
    intro ret h
    rw [List.foldl_cons,
      ih (evStep ret a) (fun item hm => h item (List.mem_cons_of_mem a hm))]
    exact evStep_lookup_ne ret a c (h a (List.mem_cons_self a t))

theorem alignedItem_channel (evAi : Nat → List (String × AIDetectionState))
    (mdSt : Nat → Bool) (aiAi : Nat → List (String × AIDetectionState))
    (r : EvReq) :
    (alignedItem evAi mdSt aiAi r).value.bind (·.channel) = some r.channel := by
  unfold alignedItem
  by_cases h1 : r.cmd = "GetEvents"
  · rw [if_pos h1]
    rfl
  · rw [if_neg h1]
    by_cases h2 : r.cmd = "GetMdState"
    · rw [if_pos h2]
      rfl
    · rw [if_neg h2]
      rfl

theorem mkEventsBody_cons (cd : Nat × DeviceInputData)
    (t : List (Nat × DeviceInputData)) :
    mkEventsBody (cd :: t) = mkEventsBody [cd] ++ mkEventsBody t := by
  unfold mkEventsBody
  by_cases h : cd.2.hasPirEvents <;> simp [h]

theorem mkEventsBody_channel_mem :
    ∀ (m : List (Nat × DeviceInputData)) (r : EvReq), r ∈ mkEventsBody m →
      r.channel ∈ m.map Prod.fst := by
  intro m
  induction m with
  | nil => intro r hr; simp [mkEventsBody] at hr
  | cons cd t ih =>
    intro r hr
    rw [mkEventsBody_cons] at hr
    rw [List.map_cons]
    rcases List.mem_append.mp hr with h | h
    · unfold mkEventsBody at h
      by_cases hp : cd.2.hasPirEvents
      · simp [hp] at h
        simp [h]
      · simp [hp] at h
        rcases h with h | h <;> simp [h]
    · exact List.mem_cons_of_mem _ (ih r h)

theorem evSeg_lookup (evAi : Nat → List (String × AIDetectionState))
    (mdSt : Nat → Bool) (aiAi : Nat → List (String × AIDetectionState))
    (c : Nat) (d : DeviceInputData) (ret : List (Nat × EventsResponse))
    (h : lookupEntry ret c = none) :
    lookupEntry
        (List.foldl evStep ret (alignedResp evAi mdSt aiAi (mkEventsBody [(c, d)]))) c
      = some (expectedEvents evAi mdSt aiAi c d.hasPirEvents) := by
  by_cases hp : d.hasPirEvents
  · have hbody : mkEventsBody [(c, d)] = [⟨"GetEvents", c⟩] := by
      simp [mkEventsBody, hp]
    rw [hbody]
    show lookupEntry (evStep ret (alignedItem evAi mdSt aiAi ⟨"GetEvents", c⟩)) c = _
    rw [evStep_eq ret _ c (alignedItem_channel evAi mdSt aiAi ⟨"GetEvents", c⟩), h,
      lookupEntry_setEntry_self]
    rw [show d.hasPirEvents = true from hp]
    rfl
  · have hpf : d.hasPirEvents = false := by
      revert hp; cases d.hasPirEvents <;> simp
    have hbody : mkEventsBody [(c, d)] = [⟨"GetMdState", c⟩, ⟨"GetAiState", c⟩] := by
      simp [mkEventsBody, hpf]
    rw [hbody]
    show lookupEntry
        (evStep (evStep ret (alignedItem evAi mdSt aiAi ⟨"GetMdState", c⟩))
          (alignedItem evAi mdSt aiAi ⟨"GetAiState", c⟩)) c = _
    have e1 : evStep ret (alignedItem evAi mdSt aiAi ⟨"GetMdState", c⟩) =
        setEntry ret c (evApply (alignedItem evAi mdSt aiAi ⟨"GetMdState", c⟩) {}) := by
      rw [evStep_eq ret _ c (alignedItem_channel evAi mdSt aiAi ⟨"GetMdState", c⟩), h]
      rfl
    rw [e1]
    rw [evStep_eq _ _ c (alignedItem_channel evAi mdSt aiAi ⟨"GetAiState", c⟩),
      lookupEntry_setEntry_self, lookupEntry_setEntry_self]
    rw [hpf]
    rfl

theorem events_demux_aux (evAi : Nat → List (String × AIDetectionState))
    (mdSt : Nat → Bool) (aiAi : Nat → List (String × AIDetectionState)) :
    ∀ (m : List (Nat × DeviceInputData)) (ret : List (Nat × EventsResponse)),
      (m.map Prod.fst).Nodup →
      (∀ p ∈ m, lookupEntry ret p.1 = none) →
      ∀ p ∈ m,
        lookupEntry
            (List.foldl evStep ret (alignedResp evAi mdSt aiAi (mkEventsBody m))) p.1
          = some (expectedEvents evAi mdSt aiAi p.1 p.2.hasPirEvents) := by
  intro m
  induction m with
  | nil => intro ret _ _ p hp; simp at hp
  | cons cd t ih =>
    intro ret hnd hfresh p hp
    rw [List.map_cons] at hnd
    have hnd1 := (List.nodup_cons.mp hnd).1
    have hnd2 := (List.nodup_cons.mp hnd).2
    have hsplit : alignedResp evAi mdSt aiAi (mkEventsBody (cd :: t)) =
        alignedResp evAi mdSt aiAi (mkEventsBody [cd]) ++
          alignedResp evAi mdSt aiAi (mkEventsBody t) := by
      unfold alignedResp
      rw [mkEventsBody_cons, List.map_append]
    rw [hsplit, List.foldl_append]
    rcases List.mem_cons.mp hp with rfl | hpt
    · have hc := evSeg_lookup evAi mdSt aiAi p.1 p.2 ret
        (hfresh p (List.mem_cons_self p t))
      have hframe : ∀ item ∈ alignedResp evAi mdSt aiAi (mkEventsBody t),
          item.value.bind (·.channel) ≠ some p.1 := by
        intro item hi
        obtain ⟨r, hr, rfl⟩ := List.mem_map.mp hi
        rw [alignedItem_channel]
        intro hcontra
        have hmem := mkEventsBody_channel_mem t r hr
        have hrc : r.channel = p.1 := by injection hcontra
        rw [hrc] at hmem
        exact hnd1 hmem
      rw [evFold_frame p.1 _ _ hframe]
      exact hc
    · have hqframe : ∀ (q : Nat × DeviceInputData), q ∈ t →
          lookupEntry (List.foldl evStep ret
            (alignedResp evAi mdSt aiAi (mkEventsBody [cd]))) q.1 = none := by
        intro q hq
        have hqne : q.1 ≠ cd.1 := by
          intro he
          exact hnd1 (he ▸ List.mem_map_of_mem Prod.fst hq)
        have hframe : ∀ item ∈ alignedResp evAi mdSt aiAi (mkEventsBody [cd]),
            item.value.bind (·.channel) ≠ some q.1 := by
          intro item hi
          obtain ⟨r, hr, rfl⟩ := List.mem_map.mp hi
          rw [alignedItem_channel]
          intro hcontra
          have hmem := mkEventsBody_channel_mem [cd] r hr
          have hrc : r.channel = q.1 := by injection hcontra
          rw [hrc] at hmem
          simp at hmem
          exact hqne hmem
        rw [evFold_frame q.1 _ _ hframe]
        exact hfresh q (List.mem_cons_of_mem cd hq)
      exact ih _ hnd2 hqframe p hpt

theorem lookupEntry_buildStatus_isSome :
    ∀ (m : List (Nat × DeviceInputData)) (n : Nat) (cd : Nat × DeviceInputData),
      cd ∈ m → (lookupEntry (buildStatus m n).2 cd.1).isSome = true := by
  intro m
  induction m with
  | nil => intro n cd h; simp at h
  | cons hd t ih =>
    intro n cd h
    obtain ⟨ch0, d0⟩ := hd
    unfold buildStatus
    by_cases hs : d0.sleeping
    · rw [if_pos hs]
      show (lookupEntry ((ch0, ({} : ChanIdx)) :: (buildStatus t n).2) cd.1).isSome = true
      by_cases hc : ch0 = cd.1
      · unfold lookupEntry
        rw [if_pos hc]
        rfl
      · unfold lookupEntry
        rw [if_neg hc]
        rcases List.mem_cons.mp h with rfl | hmem
        · exact absurd rfl hc
        · exact ih n cd hmem
    · rw [if_neg hs]
      by_cases hc : ch0 = cd.1
      · show (if ch0 = cd.1 then some _ else _).isSome = true
        rw [if_pos hc]
        rfl
      · show (if ch0 = cd.1 then some _ else _).isSome = true
        rw [if_neg hc]
        rcases List.mem_cons.mp h with rfl | hmem
        · exact absurd rfl hc
        · exact ih _ cd hmem

theorem statusDemux_foldlM_ok (idx : List (Nat × ChanIdx))
    (respBody : List StatusEntry) :
    ∀ (l : List (Nat × DeviceInputData))
      (acc : List (Nat × DeviceStatusResponse)),
      (∀ cd ∈ l, (lookupEntry idx cd.1).isSome = true) →
      exceptOk (l.foldlM (statusDemuxStep idx respBody) acc) = true := by
  intro l
  induction l with
  | nil => intro acc _; rfl
  | cons a t ih =>
    intro acc h
    rw [List.foldlM_cons]
    have ha := h a (List.mem_cons_self a t)
    obtain ⟨ci, hci⟩ := Option.isSome_iff_exists.mp ha
    show exceptOk (statusDemuxStep idx respBody acc a >>= _) = true
    unfold statusDemuxStep
    rw [hci]
    exact ih _ (fun cd hcd => h cd (List.mem_cons_of_mem a hcd))

/-! ## C7 -/

/-- C7 counterexample: the devices-info demultiplexer does not tolerate an
absent entry — with one known channel and an empty response body it reads
`.error` on an `undefined` entry and throws a `TypeError` instead of
completing. -/
theorem devicesDemux_throws_on_absent_entry :
    devicesDemux [0] [] none =
      Except.error "TypeError: cannot read properties of undefined" ∧
    exceptOk (devicesDemux [0] [] none) = false := by
  exact ⟨rfl, rfl⟩

/-- C7 (amended): the extended-status, battery and events demultiplexers
complete without throwing on any response body — the extended-status demux
always finds its per-channel index record, the battery demux is total and
still covers exactly the battery-capable channels, and a channel none of
whose entries arrived is simply absent from the parsed events map (its
state untouched) — but the devices-info demultiplexer throws a `TypeError`
when an expected entry at a channel's index is absent. -/
theorem demux_absent_entry_tolerance :
    (∀ (m : List (Nat × DeviceInputData)) (respBody : List StatusEntry),
      exceptOk (statusDemux m respBody) = true) ∧
    (∀ (m : List (Nat × DeviceInputData)) (respBody : List BatEntry),
      (batteryDemux m respBody).map Prod.fst =
        (m.filter (·.2.hasBattery)).map (·.1)) ∧
    (∀ (body : List EvEntry) (c : Nat),
      (∀ item ∈ body, item.value.bind (·.channel) ≠ some c) →
      lookupEntry (eventsDemux body) c = none) := by
  refine ⟨?_, ?_, ?_⟩
  · intro m respBody
    exact statusDemux_foldlM_ok (buildStatus m 0).2 respBody m []
      (fun cd hcd => lookupEntry_buildStatus_isSome m 0 cd hcd)
  · intro m respBody
    unfold batteryDemux
    rw [List.map_map]
    have haux : ∀ (l : List Nat) (f : Nat → Nat × BatteryInfoResponse),
        (∀ c, (f c).1 = c) → l.map (Prod.fst ∘ f) = l := by
      intro l f hf
      induction l with
      | nil => rfl
      | cons c t ihl => simp [hf, ihl]
    exact haux _ _ (fun c => rfl)
  · intro body c h
    unfold eventsDemux
    rw [evFold_frame c body [] h]
    rfl

/-- C7 witness: the amended theorem applied to a concrete channel map with
an empty (fully absent) response body, and to the empty events response. -/
theorem demux_absent_entry_tolerance_witness :
    exceptOk (statusDemux [(0, { hasFloodlight := true })] []) = true ∧
    (batteryDemux [(0, { hasBattery := true })] []).map Prod.fst = [0] ∧
    lookupEntry (eventsDemux []) 0 = none :=
  ⟨demux_absent_entry_tolerance.1 [(0, { hasFloodlight := true })] [],
   demux_absent_entry_tolerance.2.1 [(0, { hasBattery := true })] [],
   demux_absent_entry_tolerance.2.2 [] 0 (by intro item hi; simp at hi)⟩

/-! ## C8 -/

/-- C8: for every ordering of PIR-capable and non-PIR-capable channels with
distinct channel numbers, and every positionally-aligned response to the
events request body (one whose element `i` answers request `i`), the events
demultiplexer gives each channel exactly the parse of its own commands'
results: the `GetEvents` classes for a PIR channel (motion from the `other`
class), and the `GetMdState` state plus `GetAiState` classes otherwise. -/
theorem events_demux_positional (evAi : Nat → List (String × AIDetectionState))
    (mdSt : Nat → Bool) (aiAi : Nat → List (String × AIDetectionState))
    (m : List (Nat × DeviceInputData)) (hnd : (m.map Prod.fst).Nodup)
    (p : Nat × DeviceInputData) (hp : p ∈ m) :
    (alignedResp evAi mdSt aiAi (mkEventsBody m)).length =
      (mkEventsBody m).length ∧
    lookupEntry (eventsDemux (alignedResp evAi mdSt aiAi (mkEventsBody m))) p.1
      = some (expectedEvents evAi mdSt aiAi p.1 p.2.hasPirEvents) := by
  constructor
  · exact List.length_map _ _
  · exact events_demux_aux evAi mdSt aiAi m [] hnd (fun q _ => rfl) p hp

/-- C8 witness: the theorem applied to a concrete two-channel batch
(channel 0 without PIR events, channel 1 with PIR events) and concrete
per-command results. -/
theorem events_demux_positional_witness :
    (alignedResp witnessEvAi witnessMd witnessAi (mkEventsBody witnessChannels)).length =
      (mkEventsBody witnessChannels).length ∧
    lookupEntry (eventsDemux (alignedResp witnessEvAi witnessMd witnessAi
        (mkEventsBody witnessChannels))) 0
      = some (expectedEvents witnessEvAi witnessMd witnessAi 0 false) :=
  events_demux_positional witnessEvAi witnessMd witnessAi witnessChannels
    (by decide) (0, { hasPirEvents := false }) (by decide)

end ReolinkHub
